import Mathlib

/-!
Shallow embedding of the inventory management system
(`inventory_models.py`, `inventory_manager.py`).

Conventions of the embedding:
* SQLAlchemy rows become structures; nullable columns become `Option`.
* Business dates and timestamps are abstracted as integers (only equality
  and grouping on them matter to the manager's code).
* The store-assigned `id` and `Timestamp` columns of `InventoryTransaction`
  are omitted: no function under verification reads them (the `ORDER BY`
  clauses that use them are presentation-only and are omitted as well,
  together with `LIMIT`).
* A session commit either succeeds or raises; the write functions take a
  `commitOk : Bool` modelling the outcome of `db.commit()`.  The
  `try/except: db.rollback(); raise e` blocks become: on failure the
  returned state is the unchanged input state paired with the re-raised
  error.
-/

/-- `inventory_models.TransactionType.INWARD_OEM` — stored string `"HMSI"`. -/
def TransactionType.INWARD_OEM : String := "HMSI"

/-- `inventory_models.TransactionType.INWARD_TRANSFER` — stored string `"INWARD"`. -/
def TransactionType.INWARD_TRANSFER : String := "INWARD"

/-- `inventory_models.TransactionType.OUTWARD_TRANSFER` — stored string `"OUTWARD"`. -/
def TransactionType.OUTWARD_TRANSFER : String := "OUTWARD"

/-- `inventory_models.TransactionType.SALE` — stored string `"Sale"`. -/
def TransactionType.SALE : String := "Sale"

/-- `inventory_models.Branch`. -/
structure Branch where
  Branch_ID : String
  Branch_Name : String
deriving Repr, DecidableEq

/-- `inventory_models.BranchHierarchy` (sub-branch to parent edge). -/
structure BranchHierarchy where
  Sub_Branch_ID : String
  Parent_Branch_ID : String
deriving Repr, DecidableEq

/-- `inventory_models.InventoryTransaction` (ledger row). -/
structure InventoryTransaction where
  Date : Int
  Transaction_Type : String
  Source_External : Option String := none
  From_Branch_ID : Option String := none
  Current_Branch_ID : String
  To_Branch_ID : Option String := none
  Model : String
  Variant : String
  Color : String
  Quantity : Int
  Load_Number : Option String := none
  Remarks : String := ""
deriving Repr, DecidableEq

/-- One item of a `vehicle_batch` list (a dict with keys
`'Model'`, `'Variant'`, `'Color'`, `'Quantity'`). -/
structure VehicleItem where
  Model : String
  Variant : String
  Color : String
  Quantity : Int
deriving Repr, DecidableEq

/-- The tables of the database the inventory manager reads and writes. -/
structure DB where
  branches : List Branch
  hierarchy : List BranchHierarchy
  ledger : List InventoryTransaction
deriving Repr, DecidableEq

/-- A failed commit raises; the manager rolls back and re-raises
(`except Exception as e: db.rollback(); raise e`). -/
inductive DbError where
  | PersistenceFailure
deriving Repr, DecidableEq

/-- Truthiness of
`db.query(Branch).filter(Branch.Branch_ID == source).first()`. -/
def branchExists (db : DB) (bid : String) : Bool :=
  db.branches.any (fun b => b.Branch_ID == bid)

/-- `inventory_manager.get_managed_branches`: the sub-branches joined
through `BranchHierarchy` on `Parent_Branch_ID == head_branch_id`, with the
head branch itself prepended when it exists; when the head lookup returns
no row, just the sub-branches are returned (no error is raised). -/
def get_managed_branches (db : DB) (head_branch_id : String) : List Branch :=
  let sub_branches := db.branches.filter (fun b =>
    db.hierarchy.any (fun e =>
      e.Sub_Branch_ID == b.Branch_ID && e.Parent_Branch_ID == head_branch_id))
  match db.branches.find? (fun b => b.Branch_ID == head_branch_id) with
  | some head_branch => head_branch :: sub_branches
  | none => sub_branches

/-- The `net_quantity` CASE expression of `get_current_stock_summary` and
`get_multi_branch_stock`: `+Quantity` when the type is `INWARD_OEM` or
`INWARD_TRANSFER`, `-Quantity` otherwise (the `else_` branch). -/
def net_quantity (t : InventoryTransaction) : Int :=
  if t.Transaction_Type == TransactionType.INWARD_OEM
      || t.Transaction_Type == TransactionType.INWARD_TRANSFER then
    t.Quantity
  else
    -t.Quantity

/-- Output row of `get_current_stock_summary`. -/
structure StockSummaryRow where
  Model : String
  Variant : String
  Color : String
  Stock_On_Hand : Int
deriving Repr, DecidableEq

/-- One `GROUP BY (Model, Variant, Color)` group of
`get_current_stock_summary`, summing `net_quantity` over the group. -/
def summaryRow (rows : List InventoryTransaction) (k : String × String × String) :
    StockSummaryRow :=
  { Model := k.1, Variant := k.2.1, Color := k.2.2,
    Stock_On_Hand := ((rows.filter (fun t =>
      t.Model == k.1 && t.Variant == k.2.1 && t.Color == k.2.2)).map net_quantity).sum }

/-- `inventory_manager.get_current_stock_summary`: filter the ledger to
`Current_Branch_ID == branch_id`, group by `(Model, Variant, Color)`, sum
the signed `net_quantity`, and keep groups `HAVING sum != 0`. -/
def get_current_stock_summary (db : DB) (branch_id : String) : List StockSummaryRow :=
  let rows := db.ledger.filter (fun t => t.Current_Branch_ID == branch_id)
  (((rows.map (fun t => (t.Model, t.Variant, t.Color))).dedup).map (summaryRow rows)).filter
    (fun r => r.Stock_On_Hand != 0)

/-- Output row of `get_multi_branch_stock`. -/
structure MultiBranchStockRow where
  Branch_Name : String
  Model : String
  Variant : String
  Color : String
  Stock : Int
deriving Repr, DecidableEq

/-- The join of `get_multi_branch_stock`: ledger rows with
`Current_Branch_ID` in `branch_ids`, inner-joined to `Branch` on
`Current_Branch_ID == Branch_ID` to obtain the branch name. -/
def joinedStock (db : DB) (branch_ids : List String) :
    List (String × InventoryTransaction) :=
  db.ledger.filterMap (fun t =>
    if branch_ids.contains t.Current_Branch_ID then
      (db.branches.find? (fun b => b.Branch_ID == t.Current_Branch_ID)).map
        (fun b => (b.Branch_Name, t))
    else none)

/-- One `GROUP BY (Branch_Name, Model, Variant, Color)` group of
`get_multi_branch_stock`. -/
def multiRow (rows : List (String × InventoryTransaction))
    (k : String × String × String × String) : MultiBranchStockRow :=
  { Branch_Name := k.1, Model := k.2.1, Variant := k.2.2.1, Color := k.2.2.2,
    Stock := ((rows.filter (fun p =>
      p.1 == k.1 && p.2.Model == k.2.1 && p.2.Variant == k.2.2.1
        && p.2.Color == k.2.2.2)).map (fun p => net_quantity p.2)).sum }

/-- `inventory_manager.get_multi_branch_stock`: join to `Branch`, filter to
the requested branches, group by `(Branch_Name, Model, Variant, Color)`,
sum `net_quantity`, keep groups `HAVING sum != 0`. -/
def get_multi_branch_stock (db : DB) (branch_ids : List String) :
    List MultiBranchStockRow :=
  let rows := joinedStock db branch_ids
  (((rows.map (fun p => (p.1, p.2.Model, p.2.Variant, p.2.Color))).dedup).map
    (multiRow rows)).filter (fun r => r.Stock != 0)

/-- The double join of `get_daily_transfer_summary`: each ledger row is
inner-joined to `Branch` as `FromBranch` on `From_Branch_ID` and as
`ToBranch` on `To_Branch_ID` (a row with a NULL endpoint is dropped by the
inner join), then filtered to `Transaction_Type == OUTWARD_TRANSFER`.
Yields `(Date, From_Branch_Name, To_Branch_Name, Quantity)`. -/
def transferJoinRow (db : DB) (t : InventoryTransaction) :
    Option (Int × String × String × Int) :=
  match t.From_Branch_ID, t.To_Branch_ID with
  | some fid, some tid =>
    match db.branches.find? (fun b => b.Branch_ID == fid),
          db.branches.find? (fun b => b.Branch_ID == tid) with
    | some fb, some tb =>
      if t.Transaction_Type == TransactionType.OUTWARD_TRANSFER then
        some (t.Date, fb.Branch_Name, tb.Branch_Name, t.Quantity)
      else none
    | _, _ => none
  | _, _ => none

/-- The joined-and-filtered row set of `get_daily_transfer_summary`. -/
def joinedTransfers (db : DB) : List (Int × String × String × Int) :=
  db.ledger.filterMap (transferJoinRow db)

/-- Output row of `get_daily_transfer_summary`. -/
structure TransferSummaryRow where
  Date : Int
  From_Branch : String
  To_Branch : String
  Total_Qty : Int
deriving Repr, DecidableEq

/-- One `GROUP BY (Date, From_Branch, To_Branch)` group of
`get_daily_transfer_summary`. -/
def dailyRow (rows : List (Int × String × String × Int))
    (k : Int × String × String) : TransferSummaryRow :=
  { Date := k.1, From_Branch := k.2.1, To_Branch := k.2.2,
    Total_Qty := ((rows.filter (fun p =>
      p.1 == k.1 && p.2.1 == k.2.1 && p.2.2.1 == k.2.2)).map
        (fun p => p.2.2.2)).sum }

/-- `inventory_manager.get_daily_transfer_summary`: group the double join
by `(Date, From_Branch, To_Branch)` and sum `Quantity`. -/
def get_daily_transfer_summary (db : DB) : List TransferSummaryRow :=
  let rows := joinedTransfers db
  ((rows.map (fun p => (p.1, p.2.1, p.2.2.1))).dedup).map (dailyRow rows)

/-- The single row built by `inventory_manager.log_oem_inward`. -/
def oemInwardRow (branch_id model var color : String) (qty : Int)
    (load_no : String) (dt : Int) (rem : String) : InventoryTransaction :=
  { Date := dt, Transaction_Type := TransactionType.INWARD_OEM,
    Current_Branch_ID := branch_id, Source_External := some "HMSI",
    Model := model, Variant := var, Color := color, Quantity := qty,
    Load_Number := some load_no, Remarks := rem }

/-- `inventory_manager.log_oem_inward`. -/
def log_oem_inward (commitOk : Bool) (db : DB) (branch_id model var color : String)
    (qty : Int) (load_no : String) (dt : Int) (rem : String) : DB × Option DbError :=
  let txn := oemInwardRow branch_id model var color qty load_no dt rem
  if commitOk then ({ db with ledger := db.ledger ++ [txn] }, none)
  else (db, some DbError.PersistenceFailure)

/-- The `txn_out` row of `inventory_manager.log_transfer`. -/
def transferOutRow (from_id to_id model var color : String) (qty : Int)
    (dt : Int) (rem : String) : InventoryTransaction :=
  { Date := dt, Transaction_Type := TransactionType.OUTWARD_TRANSFER,
    Current_Branch_ID := from_id, To_Branch_ID := some to_id,
    Model := model, Variant := var, Color := color, Quantity := qty,
    Remarks := "Transfer OUT to " ++ to_id ++ " from " ++ from_id ++ ". " ++ rem }

/-- The `txn_in` row of `inventory_manager.log_transfer`. -/
def transferInRow (from_id to_id model var color : String) (qty : Int)
    (dt : Int) (rem : String) : InventoryTransaction :=
  { Date := dt, Transaction_Type := TransactionType.INWARD_TRANSFER,
    Current_Branch_ID := to_id, From_Branch_ID := some from_id,
    Model := model, Variant := var, Color := color, Quantity := qty,
    Remarks := "Auto-transfer IN from " ++ from_id ++ " to " ++ to_id ++ ". " ++ rem }

/-- `inventory_manager.log_transfer`: append the OUTWARD/INWARD pair and
commit; on failure roll back (state unchanged) and re-raise. -/
def log_transfer (commitOk : Bool) (db : DB) (from_id to_id model var color : String)
    (qty : Int) (dt : Int) (rem : String) : DB × Option DbError :=
  let txn_out := transferOutRow from_id to_id model var color qty dt rem
  let txn_in := transferInRow from_id to_id model var color qty dt rem
  if commitOk then ({ db with ledger := db.ledger ++ [txn_out, txn_in] }, none)
  else (db, some DbError.PersistenceFailure)

/-- The single SALE row built by `inventory_manager.log_sale`. -/
def saleRow (branch_id model var color : String) (qty : Int) (dt : Int)
    (rem : String) : InventoryTransaction :=
  { Date := dt, Transaction_Type := TransactionType.SALE,
    Current_Branch_ID := branch_id,
    Model := model, Variant := var, Color := color, Quantity := qty,
    Remarks := rem }

/-- `inventory_manager.log_sale`: append one SALE row at the branch and
commit. -/
def log_sale (commitOk : Bool) (db : DB) (branch_id model var color : String)
    (qty : Int) (dt : Int) (rem : String) : DB × Option DbError :=
  let txn := saleRow branch_id model var color qty dt rem
  if commitOk then ({ db with ledger := db.ledger ++ [txn] }, none)
  else (db, some DbError.PersistenceFailure)

/-- The per-item SALE row of `inventory_manager.log_bulk_sales`. -/
def bulkSaleRow (branch_id : String) (date_val : Int) (remarks : String)
    (item : VehicleItem) : InventoryTransaction :=
  { Date := date_val, Transaction_Type := TransactionType.SALE,
    Current_Branch_ID := branch_id,
    Model := item.Model, Variant := item.Variant, Color := item.Color,
    Quantity := item.Quantity, Remarks := remarks }

/-- `inventory_manager.log_bulk_sales`. -/
def log_bulk_sales (commitOk : Bool) (db : DB) (branch_id : String)
    (date_val : Int) (remarks : String) (vehicle_batch : List VehicleItem) :
    DB × Option DbError :=
  let rows := vehicle_batch.map (bulkSaleRow branch_id date_val remarks)
  if commitOk then ({ db with ledger := db.ledger ++ rows }, none)
  else (db, some DbError.PersistenceFailure)

/-- The per-item outward row of `inventory_manager.log_bulk_inward`
(internal source). -/
def bulkInwardOutRow (current_branch_id source : String) (date_val : Int)
    (remarks : String) (item : VehicleItem) : InventoryTransaction :=
  { Date := date_val, Transaction_Type := TransactionType.OUTWARD_TRANSFER,
    Current_Branch_ID := source, To_Branch_ID := some current_branch_id,
    Model := item.Model, Variant := item.Variant, Color := item.Color,
    Quantity := item.Quantity,
    Remarks := "Bulk Transfer OUT to " ++ current_branch_id ++ ". " ++ remarks }

/-- The per-item inward row of `inventory_manager.log_bulk_inward`
(internal source). -/
def bulkInwardInRow (current_branch_id source load_no : String) (date_val : Int)
    (remarks : String) (item : VehicleItem) : InventoryTransaction :=
  { Date := date_val, Transaction_Type := TransactionType.INWARD_TRANSFER,
    Current_Branch_ID := current_branch_id, From_Branch_ID := some source,
    Model := item.Model, Variant := item.Variant, Color := item.Color,
    Quantity := item.Quantity,
    Remarks := "Bulk Transfer IN from " ++ source ++ ". " ++ remarks,
    Load_Number := some load_no }

/-- The per-item OEM row of `inventory_manager.log_bulk_inward`
(external source). -/
def bulkInwardOemRow (current_branch_id source load_no : String) (date_val : Int)
    (remarks : String) (item : VehicleItem) : InventoryTransaction :=
  { Date := date_val, Transaction_Type := TransactionType.INWARD_OEM,
    Current_Branch_ID := current_branch_id, Source_External := some source,
    Load_Number := some load_no, Remarks := remarks,
    Model := item.Model, Variant := item.Variant, Color := item.Color,
    Quantity := item.Quantity }

/-- `inventory_manager.log_bulk_inward`: resolve `source` against the
branch table once; internal source yields an OUTWARD/INWARD pair per item,
external source one INWARD_OEM row per item; one commit, rollback on
failure. -/
def log_bulk_inward (commitOk : Bool) (db : DB) (current_branch_id source load_no : String)
    (date_val : Int) (remarks : String) (vehicle_batch : List VehicleItem) :
    DB × Option DbError :=
  let is_internal := branchExists db source
  let rows :=
    if is_internal then
      vehicle_batch.flatMap (fun item =>
        [bulkInwardOutRow current_branch_id source date_val remarks item,
         bulkInwardInRow current_branch_id source load_no date_val remarks item])
    else
      vehicle_batch.map (bulkInwardOemRow current_branch_id source load_no date_val remarks)
  if commitOk then ({ db with ledger := db.ledger ++ rows }, none)
  else (db, some DbError.PersistenceFailure)

/-- The per-item outward row of `inventory_manager.log_bulk_transfer`. -/
def bulkTransferOutRow (from_branch_id to_branch_id : String) (date_val : Int)
    (remarks : String) (item : VehicleItem) : InventoryTransaction :=
  { Date := date_val, Transaction_Type := TransactionType.OUTWARD_TRANSFER,
    Current_Branch_ID := from_branch_id, To_Branch_ID := some to_branch_id,
    Remarks := "Transfer OUT to " ++ to_branch_id ++ ". " ++ remarks,
    Model := item.Model, Variant := item.Variant, Color := item.Color,
    Quantity := item.Quantity }

/-- The per-item inward row of `inventory_manager.log_bulk_transfer`. -/
def bulkTransferInRow (from_branch_id to_branch_id : String) (date_val : Int)
    (remarks : String) (item : VehicleItem) : InventoryTransaction :=
  { Date := date_val, Transaction_Type := TransactionType.INWARD_TRANSFER,
    Current_Branch_ID := to_branch_id, From_Branch_ID := some from_branch_id,
    Remarks := "Transfer IN from " ++ from_branch_id ++ ". " ++ remarks,
    Model := item.Model, Variant := item.Variant, Color := item.Color,
    Quantity := item.Quantity }

/-- `inventory_manager.log_bulk_transfer`: an OUTWARD/INWARD pair per item,
one commit, rollback on failure. -/
def log_bulk_transfer (commitOk : Bool) (db : DB) (from_branch_id to_branch_id : String)
    (date_val : Int) (remarks : String) (vehicle_batch : List VehicleItem) :
    DB × Option DbError :=
  let rows := vehicle_batch.flatMap (fun item =>
    [bulkTransferOutRow from_branch_id to_branch_id date_val remarks item,
     bulkTransferInRow from_branch_id to_branch_id date_val remarks item])
  if commitOk then ({ db with ledger := db.ledger ++ rows }, none)
  else (db, some DbError.PersistenceFailure)

/-- The external-source row of `inventory_manager.log_inward_stock`; this
is the one write path that case-normalizes the vehicle descriptor
(`model.strip().upper()` etc.). -/
def inwardStockOemRow (current_branch_id source model variant color : String)
    (qty : Int) (load_no : String) (date_val : Int) (remarks : String) :
    InventoryTransaction :=
  { Date := date_val, Transaction_Type := TransactionType.INWARD_OEM,
    Current_Branch_ID := current_branch_id, Source_External := some source,
    Model := model.trim.toUpper, Variant := variant.trim.toUpper,
    Color := color.trim.toUpper, Quantity := qty,
    Load_Number := some load_no, Remarks := remarks }

/-- `inventory_manager.log_inward_stock`: internal source delegates to
`log_transfer` with `remarks + " (Logged via Inward)"`; external source
appends one case-normalized INWARD_OEM row. -/
def log_inward_stock (commitOk : Bool) (db : DB) (current_branch_id source model variant color : String)
    (qty : Int) (load_no : String) (date_val : Int) (remarks : String) :
    DB × Option DbError :=
  let is_internal := branchExists db source
  if is_internal then
    log_transfer commitOk db source current_branch_id model variant color qty
      date_val (remarks ++ " (Logged via Inward)")
  else
    let txn := inwardStockOemRow current_branch_id source model variant color qty
      load_no date_val remarks
    if commitOk then ({ db with ledger := db.ledger ++ [txn] }, none)
    else (db, some DbError.PersistenceFailure)

/-- Modelled from the spec: the `SalesRecord` ORM class is referenced by
`inventory_manager.py` but its declaration is not among the provided
source files; the fields follow the spec's data-model section and the
attributes the manager reads and writes. -/
structure SalesRecord where
  id : Int
  Branch_ID : String
  fulfillment_status : String
  pdi_assigned_to : Option String := none
  chassis_no : Option String := none
  pdi_completion_date : Option Int := none
  is_insurance_done : Bool := false
  is_tr_done : Bool := false
deriving Repr, DecidableEq

/-- Mutating the row returned by `query.filter(...).first()` and
committing: the first list element satisfying `p` is replaced by its image
under `f`; when no element matches, the list is unchanged. -/
def updateFirst (p : α → Bool) (f : α → α) : List α → List α
  | [] => []
  | x :: xs => if p x then f x :: xs else x :: updateFirst p f xs

/-- `inventory_manager.assign_pdi_mechanic`: if a record with the id
exists, set `pdi_assigned_to` and move the status to `"PDI In Progress"`
(no guard on the current status); otherwise do nothing. -/
def assign_pdi_mechanic (records : List SalesRecord) (sale_id : Int)
    (mechanic_name : String) : List SalesRecord :=
  updateFirst (fun r => r.id == sale_id)
    (fun r => { r with pdi_assigned_to := some mechanic_name,
                       fulfillment_status := "PDI In Progress" })
    records

/-- `inventory_manager.complete_pdi`: if a record with the id exists, set
`chassis_no`, move the status to `"PDI Complete"` and stamp
`pdi_completion_date` with the current time (`now`); no guard on the
current status or on `chassis_no` being non-empty; otherwise do nothing. -/
def complete_pdi (records : List SalesRecord) (sale_id : Int)
    (chassis_no : String) (now : Int) : List SalesRecord :=
  updateFirst (fun r => r.id == sale_id)
    (fun r => { r with chassis_no := some chassis_no,
                       fulfillment_status := "PDI Complete",
                       pdi_completion_date := some now })
    records

/-- Error kind of the spec's `managedBranches` contract. -/
inductive LookupError where
  | NotFound
deriving Repr, DecidableEq

/-- Modelled from the spec (for the refinement check of the
`managedBranches` contract): "returns `{head} ∪ {children of head}`, head
always included. Fails with NotFound if `headId` does not exist." -/
def managedBranches_claim (db : DB) (head_branch_id : String) :
    Except LookupError (List Branch) :=
  match db.branches.find? (fun b => b.Branch_ID == head_branch_id) with
  | some head_branch =>
    Except.ok (head_branch :: db.branches.filter (fun b =>
      db.hierarchy.any (fun e =>
        e.Sub_Branch_ID == b.Branch_ID && e.Parent_Branch_ID == head_branch_id)))
  | none => Except.error LookupError.NotFound

/-! Helper lemmas. -/

/-- A flatMap producing a two-element list per item has twice the length. -/
theorem flatMap_pair_length {α β : Type} (f g : α → β) :
    ∀ l : List α, (l.flatMap (fun i => [f i, g i])).length = 2 * l.length
  | [] => rfl
  | x :: xs => by
    have ih := flatMap_pair_length f g xs
    simp only [List.flatMap_cons, List.length_append, ih, List.length_cons,
      List.length_nil]
    omega

/-- Summing the two-element lengths of a pair-producing map gives twice
the length. -/
theorem map_length_pair_sum {α β : Type} (f g : α → β) :
    ∀ l : List α,
      (l.map (List.length ∘ fun i => [f i, g i])).sum = 2 * l.length
  | [] => rfl
  | x :: xs => by
    have ih := map_length_pair_sum f g xs
    simp only [List.map_cons, List.sum_cons, ih, List.length_cons]
    simp [Function.comp]
    omega

/-- `updateFirst` is the identity when no element satisfies the predicate. -/
theorem updateFirst_of_forall_false {α : Type} (p : α → Bool) (f : α → α) :
    ∀ l : List α, (∀ a ∈ l, p a = false) → updateFirst p f l = l
  | [], _ => rfl
  | x :: xs, h => by
    have hx : p x = false := h x (List.mem_cons_self x xs)
    have ih := updateFirst_of_forall_false p f xs
      (fun a ha => h a (List.mem_cons_of_mem x ha))
    simp [updateFirst, hx, ih]

/-- `updateFirst` rewrites the first matching element and nothing else. -/
theorem updateFirst_append_cons {α : Type} (p : α → Bool) (f : α → α) :
    ∀ (pre : List α) (a : α) (post : List α), (∀ x ∈ pre, p x = false) →
      p a = true → updateFirst p f (pre ++ a :: post) = pre ++ f a :: post
  | [], a, post, _, ha => by simp [updateFirst, ha]
  | x :: pre, a, post, hpre, ha => by
    have hx : p x = false := hpre x (List.mem_cons_self x pre)
    have ih := updateFirst_append_cons p f pre a post
      (fun y hy => hpre y (List.mem_cons_of_mem x hy)) ha
    simp [updateFirst, hx, ih]

/-! Concrete states used by counterexamples and witnesses. -/

/-- Two branches, no hierarchy, empty ledger. -/
def dbAB : DB :=
  { branches := [⟨"A", "Alpha"⟩, ⟨"B", "Beta"⟩], hierarchy := [], ledger := [] }

/-- A head branch with one sub-branch. -/
def dbHead : DB :=
  { branches := [⟨"H1", "Head One"⟩, ⟨"S1", "Sub One"⟩],
    hierarchy := [⟨"S1", "H1"⟩], ledger := [] }

/-- One branch holding five units from a single OEM arrival. -/
def dbStock : DB :=
  { branches := [⟨"B1", "Branch One"⟩], hierarchy := [],
    ledger := [{ Date := 1, Transaction_Type := "HMSI", Current_Branch_ID := "B1",
                 Model := "M", Variant := "V", Color := "C", Quantity := 5 }] }

/-- A ledger holding a single row typed `"ADJUSTMENT"` with signed
quantity `+5` (the spec's ADJUSTMENT lifecycle; the string is not one of
the four constants of `inventory_models.TransactionType`). -/
def dbAdj : DB :=
  { branches := [], hierarchy := [],
    ledger := [{ Date := 1, Transaction_Type := "ADJUSTMENT",
                 Current_Branch_ID := "B1", Model := "M", Variant := "V",
                 Color := "C", Quantity := 5 }] }

/-- C1: for every transfer write (`log_transfer` and `log_bulk_transfer`)
with sender A and receiver B, the ledger gains exactly two rows per item —
an OUTWARD_TRANSFER row at A with `To_Branch_ID = B` and an
INWARD_TRANSFER row at B with `From_Branch_ID = A` — and the two rows of a
pair carry identical model, variant, color, quantity and date. -/
theorem c1_transfer_double_entry (db : DB) (A B model var color : String)
    (qty dt : Int) (rem : String) (batch : List VehicleItem) :
    ((log_transfer true db A B model var color qty dt rem).1.ledger =
        db.ledger ++ [transferOutRow A B model var color qty dt rem,
                      transferInRow A B model var color qty dt rem]) ∧
    (log_transfer true db A B model var color qty dt rem).2 = none ∧
    (transferOutRow A B model var color qty dt rem).Transaction_Type
        = TransactionType.OUTWARD_TRANSFER ∧
    (transferOutRow A B model var color qty dt rem).Current_Branch_ID = A ∧
    (transferOutRow A B model var color qty dt rem).To_Branch_ID = some B ∧
    (transferInRow A B model var color qty dt rem).Transaction_Type
        = TransactionType.INWARD_TRANSFER ∧
    (transferInRow A B model var color qty dt rem).Current_Branch_ID = B ∧
    (transferInRow A B model var color qty dt rem).From_Branch_ID = some A ∧
    ((transferOutRow A B model var color qty dt rem).Model,
     (transferOutRow A B model var color qty dt rem).Variant,
     (transferOutRow A B model var color qty dt rem).Color,
     (transferOutRow A B model var color qty dt rem).Quantity,
     (transferOutRow A B model var color qty dt rem).Date)
        = (model, var, color, qty, dt) ∧
    ((transferInRow A B model var color qty dt rem).Model,
     (transferInRow A B model var color qty dt rem).Variant,
     (transferInRow A B model var color qty dt rem).Color,
     (transferInRow A B model var color qty dt rem).Quantity,
     (transferInRow A B model var color qty dt rem).Date)
        = (model, var, color, qty, dt) ∧
    ((log_bulk_transfer true db A B dt rem batch).1.ledger =
        db.ledger ++ batch.flatMap (fun item =>
          [bulkTransferOutRow A B dt rem item, bulkTransferInRow A B dt rem item])) ∧
    (log_bulk_transfer true db A B dt rem batch).2 = none ∧
    (∀ item : VehicleItem,
      (bulkTransferOutRow A B dt rem item).Transaction_Type
          = TransactionType.OUTWARD_TRANSFER ∧
      (bulkTransferOutRow A B dt rem item).Current_Branch_ID = A ∧
      (bulkTransferOutRow A B dt rem item).To_Branch_ID = some B ∧
      (bulkTransferInRow A B dt rem item).Transaction_Type
          = TransactionType.INWARD_TRANSFER ∧
      (bulkTransferInRow A B dt rem item).Current_Branch_ID = B ∧
      (bulkTransferInRow A B dt rem item).From_Branch_ID = some A ∧
      ((bulkTransferOutRow A B dt rem item).Model,
       (bulkTransferOutRow A B dt rem item).Variant,
       (bulkTransferOutRow A B dt rem item).Color,
       (bulkTransferOutRow A B dt rem item).Quantity,
       (bulkTransferOutRow A B dt rem item).Date)
          = (item.Model, item.Variant, item.Color, item.Quantity, dt) ∧
      ((bulkTransferInRow A B dt rem item).Model,
       (bulkTransferInRow A B dt rem item).Variant,
       (bulkTransferInRow A B dt rem item).Color,
       (bulkTransferInRow A B dt rem item).Quantity,
       (bulkTransferInRow A B dt rem item).Date)
          = (item.Model, item.Variant, item.Color, item.Quantity, dt)) :=
  ⟨rfl, rfl, rfl, rfl, rfl, rfl, rfl, rfl, rfl, rfl, rfl, rfl,
    fun _ => ⟨rfl, rfl, rfl, rfl, rfl, rfl, rfl, rfl⟩⟩

/-- C3: every batch write is atomic — on a successful commit the ledger is
the old ledger with one row appended per sale item, two per transfer item
(and two or one per inward item depending on the source being internal);
on a failed commit the state is rolled back unchanged and the error is
re-raised. -/
theorem c3_bulk_atomicity (db : DB) (branch A B source load : String) (dt : Int)
    (rem : String) (batch : List VehicleItem) :
    (log_bulk_sales false db branch dt rem batch
        = (db, some DbError.PersistenceFailure)) ∧
    ((log_bulk_sales true db branch dt rem batch).2 = none) ∧
    ((log_bulk_sales true db branch dt rem batch).1.ledger =
        db.ledger ++ batch.map (bulkSaleRow branch dt rem)) ∧
    ((log_bulk_sales true db branch dt rem batch).1.ledger.length =
        db.ledger.length + batch.length) ∧
    (log_bulk_transfer false db A B dt rem batch
        = (db, some DbError.PersistenceFailure)) ∧
    ((log_bulk_transfer true db A B dt rem batch).2 = none) ∧
    ((log_bulk_transfer true db A B dt rem batch).1.ledger =
        db.ledger ++ batch.flatMap (fun item =>
          [bulkTransferOutRow A B dt rem item, bulkTransferInRow A B dt rem item])) ∧
    ((log_bulk_transfer true db A B dt rem batch).1.ledger.length =
        db.ledger.length + 2 * batch.length) ∧
    (log_bulk_inward false db branch source load dt rem batch
        = (db, some DbError.PersistenceFailure)) ∧
    ((log_bulk_inward true db branch source load dt rem batch).2 = none) ∧
    ((log_bulk_inward true db branch source load dt rem batch).1.ledger.length =
        db.ledger.length +
          (if branchExists db source then 2 * batch.length else batch.length)) := by
  refine ⟨rfl, rfl, rfl, ?_, rfl, rfl, rfl, ?_, rfl, rfl, ?_⟩
  · simp [log_bulk_sales]
  · simp [log_bulk_transfer, map_length_pair_sum]
  · cases h : branchExists db source <;>
      simp [log_bulk_inward, h, map_length_pair_sum]

/-- C4 counterexample: for an id absent from the branch registry,
`get_managed_branches` does not fail with NotFound (as the claim states);
it returns an ordinary empty list, while the claim's contract demands an
error. -/
theorem c4_counterexample :
    managedBranches_claim dbAB "ZZ" = Except.error LookupError.NotFound ∧
    get_managed_branches dbAB "ZZ" = [] :=
  ⟨rfl, rfl⟩

/-- C4 amended: for every head id, `get_managed_branches` returns exactly
the branches that are the registered head (when one exists) or a recorded
child of the head; the head, when it exists, is always included; for an id
with no branch row the function simply returns the recorded children (no
error is raised). -/
theorem c4_managed_branches (db : DB) (hid : String) :
    (∀ b : Branch, b ∈ get_managed_branches db hid ↔
        (db.branches.find? (fun x => x.Branch_ID == hid) = some b ∨
          (b ∈ db.branches ∧ db.hierarchy.any (fun e =>
            e.Sub_Branch_ID == b.Branch_ID && e.Parent_Branch_ID == hid) = true))) ∧
    (∀ h : Branch, db.branches.find? (fun x => x.Branch_ID == hid) = some h →
        h ∈ get_managed_branches db hid) ∧
    (db.branches.find? (fun x => x.Branch_ID == hid) = none →
        get_managed_branches db hid = db.branches.filter (fun b =>
          db.hierarchy.any (fun e =>
            e.Sub_Branch_ID == b.Branch_ID && e.Parent_Branch_ID == hid))) := by
  cases hfind : db.branches.find? (fun b => b.Branch_ID == hid) with
  | some h =>
    refine ⟨?_, ?_, ?_⟩
    · intro b
      simp only [get_managed_branches, hfind, List.mem_cons, List.mem_filter]
      constructor
      · rintro (rfl | hb)
        · exact Or.inl rfl
        · exact Or.inr hb
      · rintro (hfb | hb)
        · exact Or.inl (Option.some.inj hfb).symm
        · exact Or.inr hb
    · intro h2 hh2
      cases Option.some.inj hh2
      simp [get_managed_branches, hfind]
    · intro hnone
      simp at hnone
  | none =>
    refine ⟨?_, ?_, fun _ => by simp [get_managed_branches, hfind]⟩
    · intro b
      simp only [get_managed_branches, hfind, List.mem_filter]
      constructor
      · intro hb
        exact Or.inr hb
      · rintro (hfb | hb)
        · exact Option.noConfusion hfb
        · exact hb
    · intro h2 hh2
      exact Option.noConfusion hh2

/-- C4 witness: on a registry with head `"H1"`, the head lookup succeeds
and the head is a member of the returned list. -/
theorem c4_managed_branches_witness :
    dbHead.branches.find? (fun x => x.Branch_ID == "H1") = some ⟨"H1", "Head One"⟩ ∧
    (⟨"H1", "Head One"⟩ : Branch) ∈ get_managed_branches dbHead "H1" :=
  ⟨by decide, (c4_managed_branches dbHead "H1").2.1 ⟨"H1", "Head One"⟩ (by decide)⟩

/-- A sale record already past PDI, used against claim C8. -/
def recC8 : SalesRecord :=
  { id := 1, Branch_ID := "B1", fulfillment_status := "PDI Complete",
    pdi_assigned_to := some "mech_old", chassis_no := some "CH1",
    pdi_completion_date := some 5 }

/-- C8 counterexample: `assign_pdi_mechanic` reassigns a record whose
status is not the initial pending state — the claimed guard ("valid only
when the status is the initial state") does not exist in the code. -/
theorem c8_counterexample :
    recC8.fulfillment_status ≠ "Pending PDI Assignment" ∧
    assign_pdi_mechanic [recC8] 1 "mech_a" =
      [{ recC8 with pdi_assigned_to := some "mech_a",
                    fulfillment_status := "PDI In Progress" }] :=
  ⟨by decide, by decide⟩

/-- C8 amended: `assign_pdi_mechanic` updates the first record carrying
the given id — whatever its current fulfillment status — setting
`pdi_assigned_to` and the status `"PDI In Progress"`; when no record
carries the id it is a silent no-op that raises no error. -/
theorem c8_assign_behavior (records : List SalesRecord) (sale_id : Int)
    (mech : String) :
    ((∀ r ∈ records, r.id ≠ sale_id) →
        assign_pdi_mechanic records sale_id mech = records) ∧
    (∀ (pre post : List SalesRecord) (r : SalesRecord),
        records = pre ++ r :: post → (∀ q ∈ pre, q.id ≠ sale_id) →
        r.id = sale_id →
        assign_pdi_mechanic records sale_id mech =
          pre ++ { r with pdi_assigned_to := some mech,
                          fulfillment_status := "PDI In Progress" } :: post) := by
  constructor
  · intro h
    exact updateFirst_of_forall_false _ _ records
      (fun a ha => beq_eq_false_iff_ne.mpr (h a ha))
  · intro pre post r hrec hpre hr
    subst hrec
    exact updateFirst_append_cons _ _ pre r post
      (fun q hq => beq_eq_false_iff_ne.mpr (hpre q hq)) (beq_iff_eq.mpr hr)

/-- C8 witness: the update branch of the amended statement at a concrete
record. -/
theorem c8_assign_behavior_witness :
    ([recC8] = ([] : List SalesRecord) ++ recC8 :: []) ∧
    assign_pdi_mechanic [recC8] 1 "mech_a" =
      [] ++ { recC8 with pdi_assigned_to := some "mech_a",
                         fulfillment_status := "PDI In Progress" } :: [] :=
  ⟨rfl, (c8_assign_behavior [recC8] 1 "mech_a").2 [] [] recC8 rfl
    (fun q hq => by cases hq) rfl⟩

/-- A sale record not yet in PDI progress, used against claim C9. -/
def recC9 : SalesRecord :=
  { id := 7, Branch_ID := "B2", fulfillment_status := "PDI Pending" }

/-- C9 counterexample: `complete_pdi` transitions a record that is not in
`"PDI In Progress"`, and accepts an empty chassis number — neither claimed
precondition is checked by the code. -/
theorem c9_counterexample :
    recC9.fulfillment_status ≠ "PDI In Progress" ∧
    complete_pdi [recC9] 7 "" 99 =
      [{ recC9 with chassis_no := some "",
                    fulfillment_status := "PDI Complete",
                    pdi_completion_date := some 99 }] :=
  ⟨by decide, by decide⟩

/-- C9 amended: `complete_pdi` updates the first record carrying the given
id — whatever its current status and even for an empty chassis number —
setting `chassis_no`, the completion timestamp, and the status
`"PDI Complete"`; when no record carries the id it is a silent no-op. -/
theorem c9_complete_behavior (records : List SalesRecord) (sale_id : Int)
    (ch : String) (now : Int) :
    ((∀ r ∈ records, r.id ≠ sale_id) →
        complete_pdi records sale_id ch now = records) ∧
    (∀ (pre post : List SalesRecord) (r : SalesRecord),
        records = pre ++ r :: post → (∀ q ∈ pre, q.id ≠ sale_id) →
        r.id = sale_id →
        complete_pdi records sale_id ch now =
          pre ++ { r with chassis_no := some ch,
                          fulfillment_status := "PDI Complete",
                          pdi_completion_date := some now } :: post) := by
  constructor
  · intro h
    exact updateFirst_of_forall_false _ _ records
      (fun a ha => beq_eq_false_iff_ne.mpr (h a ha))
  · intro pre post r hrec hpre hr
    subst hrec
    exact updateFirst_append_cons _ _ pre r post
      (fun q hq => beq_eq_false_iff_ne.mpr (hpre q hq)) (beq_iff_eq.mpr hr)

/-- C9 witness: the update branch of the amended statement at a concrete
record. -/
theorem c9_complete_behavior_witness :
    ([recC9] = ([] : List SalesRecord) ++ recC9 :: []) ∧
    complete_pdi [recC9] 7 "CH123" 42 =
      [] ++ { recC9 with chassis_no := some "CH123",
                         fulfillment_status := "PDI Complete",
                         pdi_completion_date := some 42 } :: [] :=
  ⟨rfl, (c9_complete_behavior [recC9] 7 "CH123" 42).2 [] [] recC9 rfl
    (fun q hq => by cases hq) rfl⟩

/-- C5 counterexample: on an internal-source bulk inward, the two rows do
not share the caller's remarks string — each row's remarks is a
direction-prefixed derivative of it. -/
theorem c5_counterexample :
    branchExists dbAB "A" = true ∧
    ((log_bulk_inward true dbAB "B" "A" "L1" 1 "r" [⟨"M", "V", "C", 1⟩]).1.ledger.map
        (fun t => t.Remarks)) =
      ["Bulk Transfer OUT to B. r", "Bulk Transfer IN from A. r"] ∧
    ("Bulk Transfer OUT to B. r" : String) ≠ "r" ∧
    ("Bulk Transfer IN from A. r" : String) ≠ "r" :=
  ⟨rfl, by decide, by decide, by decide⟩

/-- C5 amended: the inward operations resolve the source against the
branch registry; an internal source yields, for every item, an
OUTWARD_TRANSFER row at the source with `To_Branch_ID` the destination and
an INWARD_TRANSFER row at the destination with `From_Branch_ID` the
source, both carrying the given date, with remarks derived from the given
remarks by a direction prefix (not equal to it); an external source yields
exactly one INWARD_OEM row per item at the destination with
`Source_External` the given source string. -/
theorem c5_inward_routing (db : DB) (dest source load model variant color : String)
    (qty dt : Int) (rem : String) (batch : List VehicleItem) :
    ((log_bulk_inward true db dest source load dt rem batch).1.ledger =
        db.ledger ++ (if branchExists db source then
          batch.flatMap (fun item =>
            [bulkInwardOutRow dest source dt rem item,
             bulkInwardInRow dest source load dt rem item])
        else batch.map (bulkInwardOemRow dest source load dt rem))) ∧
    (∀ item : VehicleItem,
      (bulkInwardOutRow dest source dt rem item).Transaction_Type
          = TransactionType.OUTWARD_TRANSFER ∧
      (bulkInwardOutRow dest source dt rem item).Current_Branch_ID = source ∧
      (bulkInwardOutRow dest source dt rem item).To_Branch_ID = some dest ∧
      (bulkInwardOutRow dest source dt rem item).Date = dt ∧
      (bulkInwardOutRow dest source dt rem item).Remarks
          = "Bulk Transfer OUT to " ++ dest ++ ". " ++ rem ∧
      (bulkInwardInRow dest source load dt rem item).Transaction_Type
          = TransactionType.INWARD_TRANSFER ∧
      (bulkInwardInRow dest source load dt rem item).Current_Branch_ID = dest ∧
      (bulkInwardInRow dest source load dt rem item).From_Branch_ID = some source ∧
      (bulkInwardInRow dest source load dt rem item).Date = dt ∧
      (bulkInwardInRow dest source load dt rem item).Remarks
          = "Bulk Transfer IN from " ++ source ++ ". " ++ rem ∧
      (bulkInwardOemRow dest source load dt rem item).Transaction_Type
          = TransactionType.INWARD_OEM ∧
      (bulkInwardOemRow dest source load dt rem item).Current_Branch_ID = dest ∧
      (bulkInwardOemRow dest source load dt rem item).Source_External = some source ∧
      (bulkInwardOemRow dest source load dt rem item).Date = dt ∧
      (bulkInwardOemRow dest source load dt rem item).Remarks = rem) ∧
    ((log_inward_stock true db dest source model variant color qty load dt rem).1.ledger =
        db.ledger ++ (if branchExists db source then
          [transferOutRow source dest model variant color qty dt
              (rem ++ " (Logged via Inward)"),
           transferInRow source dest model variant color qty dt
              (rem ++ " (Logged via Inward)")]
        else [inwardStockOemRow dest source model variant color qty load dt rem])) ∧
    (inwardStockOemRow dest source model variant color qty load dt rem).Transaction_Type
        = TransactionType.INWARD_OEM ∧
    (inwardStockOemRow dest source model variant color qty load dt rem).Current_Branch_ID
        = dest ∧
    (inwardStockOemRow dest source model variant color qty load dt rem).Source_External
        = some source ∧
    (inwardStockOemRow dest source model variant color qty load dt rem).Date = dt := by
  refine ⟨?_, fun _ => ⟨rfl, rfl, rfl, rfl, rfl, rfl, rfl, rfl, rfl, rfl, rfl,
    rfl, rfl, rfl, rfl⟩, ?_, rfl, rfl, rfl, rfl⟩
  · cases h : branchExists db source <;> simp [log_bulk_inward, h]
  · cases h : branchExists db source <;>
      simp [log_inward_stock, log_transfer, h]

/-- C7 counterexample: `log_bulk_sales` stores the caller's casing
verbatim — a lowercase model reaches the ledger in lowercase, violating
the claimed uppercase-at-write-time invariant. -/
theorem c7_counterexample :
    ((log_bulk_sales true dbAB "B1" 1 "r" [⟨"activa", "std", "red", 1⟩]).1.ledger.map
        (fun t => (t.Model, t.Variant, t.Color))) = [("activa", "std", "red")] ∧
    ("activa" : String) ≠ "ACTIVA" :=
  ⟨by decide, by decide⟩

/-- C7 amended: only `log_inward_stock`'s external-source INWARD_OEM path
case-normalizes the vehicle descriptor (strip + uppercase); every other
write path (OEM inward, transfer, sale, and all bulk variants) stores the
caller's model, variant and color strings verbatim. -/
theorem c7_casing (db : DB) (branch A B dest source load model var color : String)
    (qty dt : Int) (rem : String) (item : VehicleItem) :
    ((log_bulk_sales true db branch dt rem [item]).1.ledger =
        db.ledger ++ [bulkSaleRow branch dt rem item]) ∧
    ((bulkSaleRow branch dt rem item).Model,
     (bulkSaleRow branch dt rem item).Variant,
     (bulkSaleRow branch dt rem item).Color)
        = (item.Model, item.Variant, item.Color) ∧
    ((log_sale true db branch model var color qty dt rem).1.ledger =
        db.ledger ++ [saleRow branch model var color qty dt rem]) ∧
    ((saleRow branch model var color qty dt rem).Model,
     (saleRow branch model var color qty dt rem).Variant,
     (saleRow branch model var color qty dt rem).Color)
        = (model, var, color) ∧
    ((log_bulk_transfer true db A B dt rem [item]).1.ledger =
        db.ledger ++ [bulkTransferOutRow A B dt rem item,
                      bulkTransferInRow A B dt rem item]) ∧
    ((bulkTransferOutRow A B dt rem item).Model,
     (bulkTransferOutRow A B dt rem item).Variant,
     (bulkTransferOutRow A B dt rem item).Color)
        = (item.Model, item.Variant, item.Color) ∧
    ((bulkTransferInRow A B dt rem item).Model,
     (bulkTransferInRow A B dt rem item).Variant,
     (bulkTransferInRow A B dt rem item).Color)
        = (item.Model, item.Variant, item.Color) ∧
    ((bulkInwardOutRow dest source dt rem item).Model,
     (bulkInwardOutRow dest source dt rem item).Variant,
     (bulkInwardOutRow dest source dt rem item).Color)
        = (item.Model, item.Variant, item.Color) ∧
    ((bulkInwardInRow dest source load dt rem item).Model,
     (bulkInwardInRow dest source load dt rem item).Variant,
     (bulkInwardInRow dest source load dt rem item).Color)
        = (item.Model, item.Variant, item.Color) ∧
    ((bulkInwardOemRow dest source load dt rem item).Model,
     (bulkInwardOemRow dest source load dt rem item).Variant,
     (bulkInwardOemRow dest source load dt rem item).Color)
        = (item.Model, item.Variant, item.Color) ∧
    ((transferOutRow A B model var color qty dt rem).Model,
     (transferOutRow A B model var color qty dt rem).Variant,
     (transferOutRow A B model var color qty dt rem).Color)
        = (model, var, color) ∧
    ((transferInRow A B model var color qty dt rem).Model,
     (transferInRow A B model var color qty dt rem).Variant,
     (transferInRow A B model var color qty dt rem).Color)
        = (model, var, color) ∧
    ((oemInwardRow branch model var color qty load dt rem).Model,
     (oemInwardRow branch model var color qty load dt rem).Variant,
     (oemInwardRow branch model var color qty load dt rem).Color)
        = (model, var, color) ∧
    ((inwardStockOemRow dest source model var color qty load dt rem).Model,
     (inwardStockOemRow dest source model var color qty load dt rem).Variant,
     (inwardStockOemRow dest source model var color qty load dt rem).Color)
        = (model.trim.toUpper, var.trim.toUpper, color.trim.toUpper) :=
  ⟨rfl, rfl, rfl, rfl, rfl, rfl, rfl, rfl, rfl, rfl, rfl, rfl, rfl, rfl⟩

/-- C6: neither stock projection ever returns a row whose net quantity is
zero — groups summing to exactly zero are suppressed by the HAVING
clause. -/
theorem c6_zero_suppression (db : DB) (branch_id : String) (ids : List String) :
    (∀ r ∈ get_multi_branch_stock db ids, r.Stock ≠ 0) ∧
    (∀ r ∈ get_current_stock_summary db branch_id, r.Stock_On_Hand ≠ 0) := by
  constructor
  · intro r hr
    simp only [get_multi_branch_stock, List.mem_filter] at hr
    simpa using hr.2
  · intro r hr
    simp only [get_current_stock_summary, List.mem_filter] at hr
    simpa using hr.2

/-- C6 witness: a branch with five units on hand does produce a summary
row, and its quantity is nonzero. -/
theorem c6_zero_suppression_witness :
    (⟨"Branch One", "M", "V", "C", (5 : Int)⟩ : MultiBranchStockRow) ∈
        get_multi_branch_stock dbStock ["B1"] ∧
    (5 : Int) ≠ 0 :=
  ⟨by decide, (c6_zero_suppression dbStock "B1" ["B1"]).1
    ⟨"Branch One", "M", "V", "C", 5⟩ (by decide)⟩

/-- C2 counterexample: a ledger row typed `"ADJUSTMENT"` with signed
quantity `+5` is negated by the projection (its type is not one of the two
inward strings `"HMSI"`, `"INWARD"`, so it falls into the `else_` branch
of the CASE expression), contradicting the claim that an ADJUSTMENT row's
stored signed quantity is added directly. -/
theorem c2_counterexample :
    get_current_stock_summary dbAdj "B1" =
      [{ Model := "M", Variant := "V", Color := "C", Stock_On_Hand := -5 }] ∧
    ((-5 : Int) ≠ 5) :=
  ⟨by decide, by decide⟩

/-- C2 amended: the projection adds `+quantity` exactly for the types
INWARD_OEM and INWARD_TRANSFER and `-quantity` for every other type
(OUTWARD_TRANSFER, SALE, and any ADJUSTMENT row alike — a stored signed
adjustment quantity is negated, not added directly); and each output row
of either projection is the sum of these signed contributions over its
(branch, model, variant, color) group. -/
theorem c2_sign_convention (db : DB) (branch : String) (ids : List String) :
    (∀ t : InventoryTransaction,
        ((t.Transaction_Type = TransactionType.INWARD_OEM ∨
          t.Transaction_Type = TransactionType.INWARD_TRANSFER) →
            net_quantity t = t.Quantity) ∧
        (t.Transaction_Type ≠ TransactionType.INWARD_OEM →
          t.Transaction_Type ≠ TransactionType.INWARD_TRANSFER →
            net_quantity t = -t.Quantity)) ∧
    (∀ r ∈ get_current_stock_summary db branch,
        r.Stock_On_Hand = ((db.ledger.filter (fun t =>
          t.Current_Branch_ID == branch && t.Model == r.Model &&
            t.Variant == r.Variant && t.Color == r.Color)).map net_quantity).sum) ∧
    (∀ r ∈ get_multi_branch_stock db ids,
        r.Stock = (((joinedStock db ids).filter (fun p =>
          p.1 == r.Branch_Name && p.2.Model == r.Model &&
            p.2.Variant == r.Variant && p.2.Color == r.Color)).map
              (fun p => net_quantity p.2)).sum) := by
  refine ⟨?_, ?_, ?_⟩
  · intro t
    constructor
    · rintro (h | h) <;> simp [net_quantity, h]
    · intro h1 h2
      have e1 : (t.Transaction_Type == TransactionType.INWARD_OEM) = false :=
        beq_eq_false_iff_ne.mpr h1
      have e2 : (t.Transaction_Type == TransactionType.INWARD_TRANSFER) = false :=
        beq_eq_false_iff_ne.mpr h2
      simp [net_quantity, e1, e2]
  · intro r hr
    simp only [get_current_stock_summary, List.mem_filter, List.mem_map] at hr
    obtain ⟨⟨k, hk, hrk⟩, _⟩ := hr
    subst hrk
    simp only [summaryRow]
    rw [List.filter_filter]
    refine congrArg List.sum (congrArg (List.map net_quantity)
      (List.filter_congr ?_))
    intro a _
    cases a.Current_Branch_ID == branch <;> cases a.Model == k.1 <;>
      cases a.Variant == k.2.1 <;> cases a.Color == k.2.2 <;> rfl
  · intro r hr
    simp only [get_multi_branch_stock, List.mem_filter, List.mem_map] at hr
    obtain ⟨⟨k, hk, hrk⟩, _⟩ := hr
    subst hrk
    simp only [multiRow]

/-- C2 witness: the OEM arrival's summary row equals the signed sum over
its group. -/
theorem c2_sign_convention_witness :
    (⟨"M", "V", "C", (5 : Int)⟩ : StockSummaryRow) ∈
        get_current_stock_summary dbStock "B1" ∧
    (5 : Int) = ((dbStock.ledger.filter (fun t =>
        t.Current_Branch_ID == "B1" && t.Model == "M" && t.Variant == "V" &&
          t.Color == "C")).map net_quantity).sum := by
  have h := (c2_sign_convention dbStock "B1" ["B1"]).2.1
    ⟨"M", "V", "C", 5⟩ (by decide)
  exact ⟨by decide, h⟩

/-- A filterMap whose function returns `none` on every element is empty. -/
theorem filterMap_none {α β : Type} (g : α → Option β) :
    ∀ l : List α, (∀ a ∈ l, g a = none) → l.filterMap g = []
  | [], _ => rfl
  | x :: xs, h => by
    rw [List.filterMap_cons, h x (List.mem_cons_self x xs)]
    exact filterMap_none g xs (fun a ha => h a (List.mem_cons_of_mem x ha))

/-- Appending ledger rows that the transfer join drops leaves the joined
row set unchanged. -/
theorem joinedTransfers_extend (db : DB) (extra : List InventoryTransaction)
    (hx : ∀ t ∈ extra, transferJoinRow db t = none) :
    joinedTransfers { db with ledger := db.ledger ++ extra } = joinedTransfers db := by
  show (db.ledger ++ extra).filterMap (transferJoinRow db)
      = db.ledger.filterMap (transferJoinRow db)
  rw [List.filterMap_append, filterMap_none (transferJoinRow db) extra hx,
    List.append_nil]

/-- The daily transfer summary depends on the state only through the
joined row set. -/
theorem daily_summary_congr (db1 db2 : DB)
    (h : joinedTransfers db1 = joinedTransfers db2) :
    get_daily_transfer_summary db1 = get_daily_transfer_summary db2 := by
  simp only [get_daily_transfer_summary, h]

/-- C10 (code bug): every OUTWARD_TRANSFER row the write paths create has
`From_Branch_ID = NULL`, so the inner join of `get_daily_transfer_summary`
on `From_Branch_ID` drops it — a committed transfer contributes zero
times, not once: the summary is unchanged by any `log_transfer` or
`log_bulk_transfer` call, and on a fresh two-branch state with one
committed transfer of five units the summary is empty. -/
theorem c10_daily_summary_empty (db : DB) (A B model var color : String)
    (qty dt : Int) (rem : String) (batch : List VehicleItem) :
    (get_daily_transfer_summary
        ((log_transfer true db A B model var color qty dt rem).1) =
      get_daily_transfer_summary db) ∧
    (get_daily_transfer_summary ((log_bulk_transfer true db A B dt rem batch).1) =
      get_daily_transfer_summary db) ∧
    (get_daily_transfer_summary
        ((log_transfer true dbAB "A" "B" "M" "V" "C" 5 1 "").1) = []) := by
  refine ⟨?_, ?_, by decide⟩
  · apply daily_summary_congr
    apply joinedTransfers_extend
    intro t ht
    simp only [List.mem_cons, List.not_mem_nil, or_false] at ht
    rcases ht with rfl | rfl <;> rfl
  · apply daily_summary_congr
    apply joinedTransfers_extend
    intro t ht
    rw [List.mem_flatMap] at ht
    obtain ⟨i, _, hti⟩ := ht
    simp only [List.mem_cons, List.not_mem_nil, or_false] at hti
    rcases hti with rfl | rfl <;> rfl
